import Mathlib

/-!
A shallow embedding of the `dart` GUI websocket server core, from
`src/dart/server/RawJsonUtils.cpp` and `src/dart/server/GUIWebsocketServer.hpp`.

The wire encoders of `RawJsonUtils.cpp` append text to a `std::stringstream`;
here the stream is modelled as the list of tokens appended: array punctuation,
formatted `s_t` values (`json << vec(i)`), formatted `int` values, and literal
strings (`json << "0.0"`).  An `s_t` (a C++ `double`) is modelled as either a
finite value (a rational) or one of the non-finite IEEE values.
-/

namespace Dart

/-- A scalar of C++ type `s_t` (a `double`): a finite value, modelled as a
rational, or one of the non-finite IEEE values (NaN, plus/minus infinity). -/
inductive SVal where
  | finite (q : ℚ)
  | nan
  | posInf
  | negInf
deriving DecidableEq

/-- `isfinite` from `<cmath>`, as applied by `vecToJson` to each element. -/
def SVal.isfinite : SVal → Bool
  | SVal.finite _ => true
  | SVal.nan => false
  | SVal.posInf => false
  | SVal.negInf => false

/-- One token appended to the output `std::stringstream`. -/
inductive JsonTok where
  | lbrack
  | rbrack
  | comma
  | num (v : SVal)
  | int (n : ℤ)
  | lit (s : String)
deriving DecidableEq

/-- `Eigen::Vector3s`: three `s_t` components. -/
structure Vector3s where
  x : SVal
  y : SVal
  z : SVal
deriving DecidableEq

/-- `Eigen::Vector3s::Zero()`. -/
def Vector3s.zero : Vector3s :=
  ⟨SVal.finite 0, SVal.finite 0, SVal.finite 0⟩

/-- `Eigen::Vector2s`: two `s_t` components. -/
structure Vector2s where
  x : SVal
  y : SVal
deriving DecidableEq

/-- `Eigen::Vector3i`: three `int` components. -/
structure Vector3i where
  x : ℤ
  y : ℤ
  z : ℤ
deriving DecidableEq

/-- `Eigen::Vector2i`: two `int` components. -/
structure Vector2i where
  x : ℤ
  y : ℤ
deriving DecidableEq

/-- `escapeJson` from `RawJsonUtils.cpp`: the body is `return str;` (the
escaping itself is a `TODO` comment in the source). -/
def escapeJson (str : String) : String :=
  str

/-- `vec2iToJson` from `RawJsonUtils.cpp`: the tokens appended to the stream. -/
def vec2iToJson (vec : Vector2i) : List JsonTok :=
  [JsonTok.lbrack, JsonTok.int vec.x, JsonTok.comma, JsonTok.int vec.y,
    JsonTok.rbrack]

/-- `vec2dToJson` from `RawJsonUtils.cpp`. -/
def vec2dToJson (vec : Vector2s) : List JsonTok :=
  [JsonTok.lbrack, JsonTok.num vec.x, JsonTok.comma, JsonTok.num vec.y,
    JsonTok.rbrack]

/-- `vec3ToJson` from `RawJsonUtils.cpp`: emits the three components verbatim,
separated by commas, between brackets. -/
def vec3ToJson (vec : Vector3s) : List JsonTok :=
  [JsonTok.lbrack, JsonTok.num vec.x, JsonTok.comma, JsonTok.num vec.y,
    JsonTok.comma, JsonTok.num vec.z, JsonTok.rbrack]

/-- `vec3iToJson` from `RawJsonUtils.cpp`. -/
def vec3iToJson (vec : Vector3i) : List JsonTok :=
  [JsonTok.lbrack, JsonTok.int vec.x, JsonTok.comma, JsonTok.int vec.y,
    JsonTok.comma, JsonTok.int vec.z, JsonTok.rbrack]

/-- The loop of `vecXToJson`: each element is emitted verbatim with
`json << vec(i)` (no finiteness check), and a comma follows every element
except the last (`if (i < vec.size() - 1) json << ","`). -/
def vecXToJsonLoop : List SVal → List JsonTok
  | [] => []
  | v :: rest =>
      JsonTok.num v ::
        ((if rest.isEmpty then [] else [JsonTok.comma]) ++ vecXToJsonLoop rest)

/-- `vecXToJson` from `RawJsonUtils.cpp` (the `Eigen::VectorXs` encoder). -/
def vecXToJson (vec : List SVal) : List JsonTok :=
  JsonTok.lbrack :: vecXToJsonLoop vec ++ [JsonTok.rbrack]

/-- The loop of `vecToJson`: a finite element is emitted with
`json << vec[i]`, a non-finite one as the literal `"0.0"`; a comma follows
every element except the last. -/
def vecToJsonLoop : List SVal → List JsonTok
  | [] => []
  | v :: rest =>
      (if v.isfinite then [JsonTok.num v] else [JsonTok.lit "0.0"]) ++
        ((if rest.isEmpty then [] else [JsonTok.comma]) ++ vecToJsonLoop rest)

/-- `vecToJson` from `RawJsonUtils.cpp` (the `std::vector<s_t>` series
encoder used for plot x/y arrays). -/
def vecToJson (vec : List SVal) : List JsonTok :=
  JsonTok.lbrack :: vecToJsonLoop vec ++ [JsonTok.rbrack]

/-- Whether a token is an array element (not punctuation). -/
def JsonTok.isElem : JsonTok → Bool
  | JsonTok.lbrack => false
  | JsonTok.rbrack => false
  | JsonTok.comma => false
  | JsonTok.num _ => true
  | JsonTok.int _ => true
  | JsonTok.lit _ => true

/-- The elements of an emitted JSON array: the token stream with the array
punctuation (brackets and commas) stripped. -/
def arrayElems (ts : List JsonTok) : List JsonTok :=
  ts.filter JsonTok.isElem

/-- The shape of a well-formed emitted JSON array: an opening bracket, the
elements separated by commas, a closing bracket. -/
def jsonArray (elems : List JsonTok) : List JsonTok :=
  JsonTok.lbrack :: List.intersperse JsonTok.comma elems ++ [JsonTok.rbrack]

theorem filter_isElem_commaOpt (b : Bool) :
    List.filter JsonTok.isElem (if b then [] else [JsonTok.comma]) = [] := by
  cases b <;> rfl

theorem arrayElems_vecToJson (vec : List SVal) :
    arrayElems (vecToJson vec) =
      vec.map (fun v => if v.isfinite then JsonTok.num v
        else JsonTok.lit "0.0") := by
  have loop : ∀ l : List SVal,
      List.filter JsonTok.isElem (vecToJsonLoop l) =
        l.map (fun v => if v.isfinite then JsonTok.num v
          else JsonTok.lit "0.0") := by
    intro l
    induction l with
    | nil => rfl
    | cons v rest ih =>
        cases hv : v.isfinite <;>
          simp [vecToJsonLoop, hv, List.filter_append, filter_isElem_commaOpt,
            ih, List.filter, JsonTok.isElem]
  simp [arrayElems, vecToJson, List.filter_append, List.filter, JsonTok.isElem,
    loop vec]

theorem arrayElems_vecXToJson (vec : List SVal) :
    arrayElems (vecXToJson vec) = vec.map JsonTok.num := by
  have loop : ∀ l : List SVal,
      List.filter JsonTok.isElem (vecXToJsonLoop l) = l.map JsonTok.num := by
    intro l
    induction l with
    | nil => rfl
    | cons v rest ih =>
        simp [vecXToJsonLoop, List.filter_append, filter_isElem_commaOpt, ih,
          List.filter, JsonTok.isElem]
  simp [arrayElems, vecXToJson, List.filter_append, List.filter, JsonTok.isElem,
    loop vec]

/-- One encoded wire command, as buffered by the scheduler. -/
abbrev Command := String

/-- Modelled from the spec: the bodies of `GUIWebsocketServer::queueCommand`,
`flush` and `setAutoflush` are not under `src/` (only their declarations in
`GUIWebsocketServer.hpp`).  Spec 4.4: the scheduler holds the autoflush flag,
an ordered buffer of pending commands, and the sequence of outbound messages
already sent (each message a list of commands). -/
structure SchedulerState where
  autoflush : Bool
  buffer : List Command
  sent : List (List Command)
deriving DecidableEq

/-- Modelled from the spec: `queueCommand`'s body is not under `src/`.
Spec 4.4: with autoflush on, every enqueued command is sent as its own
message immediately; with autoflush off, commands accumulate in the ordered
buffer. -/
def queueCommand (st : SchedulerState) (c : Command) : SchedulerState :=
  if st.autoflush then { st with sent := st.sent ++ [[c]] }
  else { st with buffer := st.buffer ++ [c] }

/-- Modelled from the spec: `flush`'s body is not under `src/`.  Spec 4.4: an
explicit `flush()` serializes the entire buffer as one message and clears it
atomically; `flush()` on an empty buffer is a no-op (no message sent). -/
def flush (st : SchedulerState) : SchedulerState :=
  if st.buffer.isEmpty then st
  else { st with sent := st.sent ++ [st.buffer], buffer := [] }

/-- Enqueue a sequence of commands in order. -/
def queueAll (st : SchedulerState) (cs : List Command) : SchedulerState :=
  cs.foldl queueCommand st

theorem queueAll_no_autoflush (cs : List Command) (st : SchedulerState)
    (h : st.autoflush = false) :
    queueAll st cs =
      { autoflush := false, buffer := st.buffer ++ cs, sent := st.sent } := by
  induction cs generalizing st with
  | nil =>
      obtain ⟨a, b, s⟩ := st
      simp only [SchedulerState.mk.injEq] at h ⊢
      simp [queueAll, h]
  | cons c rest ih =>
      obtain ⟨a, b, s⟩ := st
      simp only at h
      subst h
      have step : queueCommand ⟨false, b, s⟩ c = ⟨false, b ++ [c], s⟩ := by
        simp [queueCommand]
      simp only [queueAll, List.foldl_cons]
      rw [step]
      have hrec := ih ⟨false, b ++ [c], s⟩ rfl
      simp only [queueAll] at hrec
      rw [hrec]
      simp

/-- A `std::unordered_map<std::string, T>` modelled as an association list
holding at most one entry per key; `operator[]` assignment replaces any
earlier entry for the key. -/
def mapAssign {α : Type} (m : List (String × α)) (k : String) (v : α) :
    List (String × α) :=
  (k, v) :: m.filter (fun kv => kv.1 != k)

/-- `unordered_map::erase(key)`. -/
def mapErase {α : Type} (m : List (String × α)) (k : String) :
    List (String × α) :=
  m.filter (fun kv => kv.1 != k)

theorem lookup_mapAssign_self {α : Type} (m : List (String × α)) (k : String)
    (v : α) : List.lookup k (mapAssign m k v) = some v := by
  simp [mapAssign, List.lookup]

theorem lookup_mapErase_self {α : Type} (m : List (String × α)) (k : String) :
    List.lookup k (mapErase m k) = none := by
  induction m with
  | nil => rfl
  | cons kv rest ih =>
      simp only [mapErase, List.filter_cons] at *
      by_cases h : kv.1 = k
      · simp [h, ih]
      · have hb : (kv.1 != k) = true := by simp [h]
        have hb2 : (k == kv.1) = false := by
          simp [beq_eq_false_iff_ne]
          exact fun he => h he.symm
        simp [hb, List.lookup, hb2, ih]

/-- The `Box` record nested in `GUIWebsocketServer` (hpp lines 400-409). -/
structure Box where
  key : String
  size : Vector3s
  pos : Vector3s
  euler : Vector3s
  color : Vector3s
  castShadows : Bool
  receiveShadows : Bool
deriving DecidableEq

/-- The `Sphere` record (hpp lines 411-419). -/
structure Sphere where
  key : String
  radius : SVal
  pos : Vector3s
  color : Vector3s
  castShadows : Bool
  receiveShadows : Bool
deriving DecidableEq

/-- The `Capsule` record (hpp lines 422-432). -/
structure Capsule where
  key : String
  radius : SVal
  height : SVal
  pos : Vector3s
  euler : Vector3s
  color : Vector3s
  castShadows : Bool
  receiveShadows : Bool
deriving DecidableEq

/-- The `Line` record (hpp lines 434-439). -/
structure Line where
  key : String
  points : List Vector3s
  color : Vector3s
deriving DecidableEq

/-- The `Mesh` record (hpp lines 442-457). -/
structure Mesh where
  key : String
  vertices : List Vector3s
  vertexNormals : List Vector3s
  faces : List Vector3i
  uv : List Vector2s
  textures : List String
  textureStartIndices : List ℤ
  pos : Vector3s
  euler : Vector3s
  scale : Vector3s
  color : Vector3s
  castShadows : Bool
  receiveShadows : Bool
deriving DecidableEq

/-- The `Texture` record (hpp lines 460-464). -/
structure Texture where
  key : String
  base64 : String
deriving DecidableEq

/-- The `Text` record (hpp lines 467-473). -/
structure Text where
  key : String
  contents : String
  fromTopLeft : Vector2i
  size : Vector2i
deriving DecidableEq

/-- The `Button` record (hpp lines 476-483); the `onClick` callback is
modelled as an opaque handle. -/
structure Button where
  key : String
  label : String
  fromTopLeft : Vector2i
  size : Vector2i
  onClick : ℕ
deriving DecidableEq

/-- The `Slider` record (hpp lines 486-497); the `onChange` callback is
modelled as an opaque handle. -/
structure Slider where
  key : String
  fromTopLeft : Vector2i
  size : Vector2i
  min : SVal
  max : SVal
  value : SVal
  onlyInts : Bool
  horizontal : Bool
  onChange : ℕ
deriving DecidableEq

/-- The `Plot` record (hpp lines 500-512). -/
structure Plot where
  key : String
  fromTopLeft : Vector2i
  size : Vector2i
  xs : List SVal
  minX : SVal
  maxX : SVal
  ys : List SVal
  minY : SVal
  maxY : SVal
  type : String
deriving DecidableEq

/-- The scene/UI object store of `GUIWebsocketServer` (hpp lines 398-513):
one container per kind, keyed by the shared string namespace, plus the
mouse-interaction-enabled key set. -/
structure GUIState where
  mBoxes : List (String × Box)
  mSpheres : List (String × Sphere)
  mCapsules : List (String × Capsule)
  mLines : List (String × Line)
  mMeshes : List (String × Mesh)
  mTextures : List (String × Texture)
  mText : List (String × Text)
  mButtons : List (String × Button)
  mSliders : List (String × Slider)
  mPlots : List (String × Plot)
  mMouseInteractionEnabled : List String
deriving DecidableEq

/-- Modelled from the spec: the body of `hasObject` is not under `src/` (only
its declaration, hpp lines 231-232).  True when one of the 3-D object
containers (boxes, spheres, capsules, lines, meshes) holds the key. -/
def hasObject (st : GUIState) (key : String) : Bool :=
  (List.lookup key st.mBoxes).isSome ||
  (List.lookup key st.mSpheres).isSome ||
  (List.lookup key st.mCapsules).isSome ||
  (List.lookup key st.mLines).isSome ||
  (List.lookup key st.mMeshes).isSome

/-- Modelled from the spec: the body of `getObjectPosition` is not under
`src/`.  Hpp doc (lines 234-236): the position of the object if present and
not a line, otherwise `Vector3s::Zero()`; dispatch over the kind containers
in a fixed priority order. -/
def getObjectPosition (st : GUIState) (key : String) : Vector3s :=
  match List.lookup key st.mBoxes with
  | some b => b.pos
  | none =>
  match List.lookup key st.mSpheres with
  | some s => s.pos
  | none =>
  match List.lookup key st.mCapsules with
  | some c => c.pos
  | none =>
  match List.lookup key st.mMeshes with
  | some m => m.pos
  | none => Vector3s.zero

/-- Modelled from the spec: the body of `getObjectRotation` is not under
`src/`.  Hpp doc (lines 238-240): the rotation if present and not a line or
a sphere, otherwise `Vector3s::Zero()`. -/
def getObjectRotation (st : GUIState) (key : String) : Vector3s :=
  match List.lookup key st.mBoxes with
  | some b => b.euler
  | none =>
  match List.lookup key st.mCapsules with
  | some c => c.euler
  | none =>
  match List.lookup key st.mMeshes with
  | some m => m.euler
  | none => Vector3s.zero

/-- Modelled from the spec: the body of `getObjectColor` is not under `src/`.
Hpp doc (lines 242-244): the color of the object if present, otherwise
`Vector3s::Zero()`. -/
def getObjectColor (st : GUIState) (key : String) : Vector3s :=
  match List.lookup key st.mBoxes with
  | some b => b.color
  | none =>
  match List.lookup key st.mSpheres with
  | some s => s.color
  | none =>
  match List.lookup key st.mCapsules with
  | some c => c.color
  | none =>
  match List.lookup key st.mLines with
  | some l => l.color
  | none =>
  match List.lookup key st.mMeshes with
  | some m => m.color
  | none => Vector3s.zero

/-- Modelled from the spec: the body of `getObjectScale` is not under `src/`.
Hpp doc (lines 246-249): the size of a box, scale of a mesh,
`[radius, radius, radius]` for a sphere, `[radius, radius, height]` for a
capsule, and 0 for lines (and for an absent key). -/
def getObjectScale (st : GUIState) (key : String) : Vector3s :=
  match List.lookup key st.mBoxes with
  | some b => b.size
  | none =>
  match List.lookup key st.mSpheres with
  | some s => ⟨s.radius, s.radius, s.radius⟩
  | none =>
  match List.lookup key st.mCapsules with
  | some c => ⟨c.radius, c.radius, c.height⟩
  | none =>
  match List.lookup key st.mMeshes with
  | some m => m.scale
  | none => Vector3s.zero

/-- The closed tagged variant of all object kinds sharing the key namespace
(spec section 9: one lookup table view over the kind containers). -/
inductive SceneObject where
  | box (b : Box)
  | sphere (s : Sphere)
  | capsule (c : Capsule)
  | line (l : Line)
  | mesh (m : Mesh)
  | texture (t : Texture)
  | text (t : Text)
  | button (b : Button)
  | slider (s : Slider)
  | plot (p : Plot)
deriving DecidableEq

/-- One create call, with its kind-specific payload (the key is supplied
separately, as in the `create<Kind>` signatures of the hpp). -/
inductive CreateCall where
  | box (size pos euler color : Vector3s) (castShadows receiveShadows : Bool)
  | sphere (radius : SVal) (pos color : Vector3s)
      (castShadows receiveShadows : Bool)
  | capsule (radius height : SVal) (pos euler color : Vector3s)
      (castShadows receiveShadows : Bool)
  | line (points : List Vector3s) (color : Vector3s)
  | mesh (vertices vertexNormals : List Vector3s) (faces : List Vector3i)
      (uv : List Vector2s) (textures : List String)
      (textureStartIndices : List ℤ) (pos euler scale color : Vector3s)
      (castShadows receiveShadows : Bool)
  | text (contents : String) (fromTopLeft size : Vector2i)
  | button (label : String) (fromTopLeft size : Vector2i) (onClick : ℕ)
  | slider (fromTopLeft size : Vector2i) (min max value : SVal)
      (onlyInts horizontal : Bool) (onChange : ℕ)
  | plot (fromTopLeft size : Vector2i) (xs : List SVal) (minX maxX : SVal)
      (ys : List SVal) (minY maxY : SVal) (type : String)
deriving DecidableEq

/-- The object record a create call stores under `key`. -/
def objOf (key : String) : CreateCall → SceneObject
  | CreateCall.box size pos euler color cS rS =>
      SceneObject.box ⟨key, size, pos, euler, color, cS, rS⟩
  | CreateCall.sphere radius pos color cS rS =>
      SceneObject.sphere ⟨key, radius, pos, color, cS, rS⟩
  | CreateCall.capsule radius height pos euler color cS rS =>
      SceneObject.capsule ⟨key, radius, height, pos, euler, color, cS, rS⟩
  | CreateCall.line points color =>
      SceneObject.line ⟨key, points, color⟩
  | CreateCall.mesh vs ns fs uv ts tsi pos euler scale color cS rS =>
      SceneObject.mesh ⟨key, vs, ns, fs, uv, ts, tsi, pos, euler, scale,
        color, cS, rS⟩
  | CreateCall.text contents f s =>
      SceneObject.text ⟨key, contents, f, s⟩
  | CreateCall.button label f s h =>
      SceneObject.button ⟨key, label, f, s, h⟩
  | CreateCall.slider f s mn mx v oi hz h =>
      SceneObject.slider ⟨key, f, s, mn, mx, v, oi, hz, h⟩
  | CreateCall.plot f s xs mnx mxx ys mny mxy ty =>
      SceneObject.plot ⟨key, f, s, xs, mnx, mxx, ys, mny, mxy, ty⟩

/-- Remove the key from every kind container (spec section 3, invariant (1):
a key identifies at most one live object of exactly one kind at a time). -/
def eraseAll (st : GUIState) (k : String) : GUIState :=
  { st with
    mBoxes := mapErase st.mBoxes k
    mSpheres := mapErase st.mSpheres k
    mCapsules := mapErase st.mCapsules k
    mLines := mapErase st.mLines k
    mMeshes := mapErase st.mMeshes k
    mTextures := mapErase st.mTextures k
    mText := mapErase st.mText k
    mButtons := mapErase st.mButtons k
    mSliders := mapErase st.mSliders k
    mPlots := mapErase st.mPlots k }

/-- Store an object record into the container of its kind. -/
def insertObj (st : GUIState) (k : String) : SceneObject → GUIState
  | SceneObject.box b => { st with mBoxes := mapAssign st.mBoxes k b }
  | SceneObject.sphere s => { st with mSpheres := mapAssign st.mSpheres k s }
  | SceneObject.capsule c =>
      { st with mCapsules := mapAssign st.mCapsules k c }
  | SceneObject.line l => { st with mLines := mapAssign st.mLines k l }
  | SceneObject.mesh m => { st with mMeshes := mapAssign st.mMeshes k m }
  | SceneObject.texture t =>
      { st with mTextures := mapAssign st.mTextures k t }
  | SceneObject.text t => { st with mText := mapAssign st.mText k t }
  | SceneObject.button b => { st with mButtons := mapAssign st.mButtons k b }
  | SceneObject.slider s => { st with mSliders := mapAssign st.mSliders k s }
  | SceneObject.plot p => { st with mPlots := mapAssign st.mPlots k p }

/-- Modelled from the spec: the bodies of the `create<Kind>` mutators are not
under `src/` (only their declarations).  Spec section 3, invariant (1):
creating under an existing key overwrites the prior object of the same or a
different kind, last-writer-wins, no error. -/
def applyCreate (st : GUIState) (key : String) (c : CreateCall) : GUIState :=
  insertObj (eraseAll st key) key (objOf key c)

/-- A sequence of create calls on the same key, applied in order. -/
def applyCreates (st : GUIState) (key : String) (cs : List CreateCall) :
    GUIState :=
  cs.foldl (fun s c => applyCreate s key c) st

/-- Generic lookup across all kind containers in a fixed priority order. -/
def lookupObject (st : GUIState) (key : String) : Option SceneObject :=
  match List.lookup key st.mBoxes with
  | some b => some (SceneObject.box b)
  | none =>
  match List.lookup key st.mSpheres with
  | some s => some (SceneObject.sphere s)
  | none =>
  match List.lookup key st.mCapsules with
  | some c => some (SceneObject.capsule c)
  | none =>
  match List.lookup key st.mLines with
  | some l => some (SceneObject.line l)
  | none =>
  match List.lookup key st.mMeshes with
  | some m => some (SceneObject.mesh m)
  | none =>
  match List.lookup key st.mTextures with
  | some t => some (SceneObject.texture t)
  | none =>
  match List.lookup key st.mText with
  | some t => some (SceneObject.text t)
  | none =>
  match List.lookup key st.mButtons with
  | some b => some (SceneObject.button b)
  | none =>
  match List.lookup key st.mSliders with
  | some s => some (SceneObject.slider s)
  | none =>
  match List.lookup key st.mPlots with
  | some p => some (SceneObject.plot p)
  | none => none

/-- How many kind containers hold the key. -/
def containersHolding (st : GUIState) (key : String) : ℕ :=
  (if (List.lookup key st.mBoxes).isSome then 1 else 0) +
  (if (List.lookup key st.mSpheres).isSome then 1 else 0) +
  (if (List.lookup key st.mCapsules).isSome then 1 else 0) +
  (if (List.lookup key st.mLines).isSome then 1 else 0) +
  (if (List.lookup key st.mMeshes).isSome then 1 else 0) +
  (if (List.lookup key st.mTextures).isSome then 1 else 0) +
  (if (List.lookup key st.mText).isSome then 1 else 0) +
  (if (List.lookup key st.mButtons).isSome then 1 else 0) +
  (if (List.lookup key st.mSliders).isSome then 1 else 0) +
  (if (List.lookup key st.mPlots).isSome then 1 else 0)

/-- Keep only the entries whose key does not start with `pre`. -/
def keepWithoutPre {α : Type} (pre : String) (m : List (String × α)) :
    List (String × α) :=
  m.filter (fun kv => !kv.1.startsWith pre)

/-- Modelled from the spec: the body of `deleteObjectsByPrefix` is not under
`src/` (only its declaration, hpp lines 278-279).  Spec section 3, invariant
(4): bulk deletion matches the key by exact string prefix across every kind;
spec 4.1: deletion also drops the associated mouse-interaction flags. -/
def deleteObjectsByPrefix (st : GUIState) (pre : String) : GUIState :=
  { mBoxes := keepWithoutPre pre st.mBoxes
    mSpheres := keepWithoutPre pre st.mSpheres
    mCapsules := keepWithoutPre pre st.mCapsules
    mLines := keepWithoutPre pre st.mLines
    mMeshes := keepWithoutPre pre st.mMeshes
    mTextures := keepWithoutPre pre st.mTextures
    mText := keepWithoutPre pre st.mText
    mButtons := keepWithoutPre pre st.mButtons
    mSliders := keepWithoutPre pre st.mSliders
    mPlots := keepWithoutPre pre st.mPlots
    mMouseInteractionEnabled :=
      st.mMouseInteractionEnabled.filter (fun k => !k.startsWith pre) }

/-- A container after a bulk deletion with prefix `pre`: no remaining entry's
key starts with `pre`, and every entry whose key does not start with `pre`
is untouched (present with the same value exactly when it was before). -/
def removesPre {α : Type} (pre : String) (old new : List (String × α)) :
    Prop :=
  (∀ kv ∈ new, kv.1.startsWith pre = false) ∧
  (∀ kv : String × α, kv.1.startsWith pre = false → (kv ∈ new ↔ kv ∈ old))

theorem removesPre_keepWithoutPre {α : Type} (pre : String)
    (m : List (String × α)) : removesPre pre m (keepWithoutPre pre m) := by
  constructor
  · intro kv hm
    rw [keepWithoutPre, List.mem_filter] at hm
    simpa using hm.2
  · intro kv h
    rw [keepWithoutPre, List.mem_filter]
    simp [h]

/-- A submesh of an externally-loaded asset (spec 4.3 and section 6): its own
vertex/normal/UV/face arrays and an optional material texture reference (a
missing material degrades to the default color instead of failing). -/
structure SubMesh where
  vertices : List Vector3s
  normals : List Vector3s
  uvs : List Vector2s
  faces : List Vector3i
  texture : Option String
deriving DecidableEq

/-- A node of the asset's transform hierarchy (spec 4.3): a local transform,
the submeshes attached at the node, and the child nodes.  The transform is
modelled as a map on vertices. -/
inductive AssetNode where
  | node (transform : Vector3s → Vector3s) (meshes : List SubMesh)
      (children : List AssetNode)

mutual

/-- Modelled from the spec: the flattening traversal of `createMeshASSIMP` is
not under `src/`.  Spec 4.3: depth-first traversal of the node hierarchy
accumulating a composed transform, listing each submesh with the transform
in effect at its node. -/
def dfsNode (acc : Vector3s → Vector3s) :
    AssetNode → List ((Vector3s → Vector3s) × SubMesh)
  | AssetNode.node tr ms cs =>
      ms.map (fun m => (fun v => acc (tr v), m)) ++
        dfsForest (fun v => acc (tr v)) cs

/-- Depth-first traversal of a list of sibling nodes, left to right. -/
def dfsForest : (Vector3s → Vector3s) → List AssetNode →
    List ((Vector3s → Vector3s) × SubMesh)
  | _, [] => []
  | acc, n :: rest => dfsNode acc n ++ dfsForest acc rest

end

/-- The running flat buffers of the flattener (spec 4.3). -/
structure FlatAcc where
  vertices : List Vector3s
  normals : List Vector3s
  faces : List Vector3i
  uvs : List Vector2s
  textures : List String
  textureStartIndices : List ℤ

/-- Modelled from the spec: one flattening step (spec 4.3).  Append the
transformed vertices/normals, append the faces with indices offset by the
running vertex count, append the UVs, and when the submesh carries a texture
record it together with the starting face index at which it becomes
applicable. -/
def addSubMesh (acc : FlatAcc) (tm : (Vector3s → Vector3s) × SubMesh) :
    FlatAcc :=
  let off : ℤ := acc.vertices.length
  { vertices := acc.vertices ++ tm.2.vertices.map tm.1
    normals := acc.normals ++ tm.2.normals.map tm.1
    faces := acc.faces ++
      tm.2.faces.map (fun f => ⟨f.x + off, f.y + off, f.z + off⟩)
    uvs := acc.uvs ++ tm.2.uvs
    textures := acc.textures ++
      (match tm.2.texture with
        | some t => [t]
        | none => [])
    textureStartIndices := acc.textureStartIndices ++
      (match tm.2.texture with
        | some _ => [(acc.faces.length : ℤ)]
        | none => []) }

/-- Modelled from the spec: the flattening of a whole asset (spec 4.3),
starting from the identity transform and empty buffers. -/
def flattenScene (root : AssetNode) : FlatAcc :=
  (dfsNode (fun v => v) root).foldl addSubMesh
    { vertices := [], normals := [], faces := [], uvs := [], textures := []
      textureStartIndices := [] }

/-- Modelled from the spec: the body of `createMeshASSIMP` is not under
`src/` (only its declaration, hpp lines 198-209).  It flattens the asset and
stores the resulting `Mesh` record under the key, like any other create. -/
def createMeshASSIMP (st : GUIState) (key : String) (scene : AssetNode)
    (pos euler scale color : Vector3s) (castShadows receiveShadows : Bool) :
    GUIState :=
  let f := flattenScene scene
  applyCreate st key
    (CreateCall.mesh f.vertices f.normals f.faces f.uvs f.textures
      f.textureStartIndices pos euler scale color castShadows receiveShadows)

/-- A key-down listener: called with the key name, it either succeeds or
raises an error (the error is modelled as a message). -/
abbrev KeyListener := String → Except String Unit

/-- Modelled from the spec: the dispatch boundary of `ListenerDispatch` is
not under `src/` (only the registration declarations, hpp lines 70-76).
Spec 4.5 and section 9: one listener invocation with the isolation boundary
around it — a raised error is caught and recorded, never propagated to the
rest of the dispatch. -/
def invokeIsolated (l : KeyListener) (payload : String) : Option String :=
  match l payload with
  | Except.ok _ => none
  | Except.error e => some e

/-- Modelled from the spec: dispatch of one inbound key-down event to the
registered listeners — plain iteration in registration order, each
invocation isolated. -/
def dispatchKeydown : List KeyListener → String → List (Option String)
  | [], _ => []
  | l :: rest, payload =>
      invokeIsolated l payload :: dispatchKeydown rest payload

/-- C1: in the plot series encoder `vecToJson`, each non-finite element
(NaN or plus/minus infinity) is emitted as the literal `0.0` at its position
in the output array, and each finite element is emitted unchanged at its
position. -/
theorem vecToJson_coerces_nonfinite (vec : List SVal) :
    arrayElems (vecToJson vec) =
      vec.map (fun v => if v.isfinite then JsonTok.num v
        else JsonTok.lit "0.0") ∧
    ∀ i : Nat, (arrayElems (vecToJson vec))[i]? =
      (vec[i]?).map (fun v => if v.isfinite then JsonTok.num v
        else JsonTok.lit "0.0") := by
  refine ⟨arrayElems_vecToJson vec, fun i => ?_⟩
  rw [arrayElems_vecToJson vec, List.getElem?_map]

/-- C2: `escapeJson` returns its input unchanged: no character of the input
(quotes, backslashes, control characters included) is escaped or altered. -/
theorem escapeJson_identity : ∀ s : String, escapeJson s = s :=
  fun _ => rfl

/-- C9: every 2-vector is encoded as a JSON array of exactly 2 elements and
every 3-vector as a JSON array of exactly 3 elements, components emitted
in component order (`vec2iToJson` gives `[v0, v1]`; `vec3ToJson` and
`vec3iToJson` give `[v0, v1, v2]`). -/
theorem vector_encodings_fixed_arity (v2 : Vector2i) (v3 : Vector3s)
    (w3 : Vector3i) :
    vec2iToJson v2 = jsonArray [JsonTok.int v2.x, JsonTok.int v2.y] ∧
    (arrayElems (vec2iToJson v2)).length = 2 ∧
    vec3ToJson v3 =
      jsonArray [JsonTok.num v3.x, JsonTok.num v3.y, JsonTok.num v3.z] ∧
    (arrayElems (vec3ToJson v3)).length = 3 ∧
    vec3iToJson w3 =
      jsonArray [JsonTok.int w3.x, JsonTok.int w3.y, JsonTok.int w3.z] ∧
    (arrayElems (vec3iToJson w3)).length = 3 :=
  ⟨rfl, rfl, rfl, rfl, rfl, rfl⟩

/-- C10: non-finite coercion applies only to the `std::vector<s_t>` series
encoder: `vecXToJson` and `vec3ToJson` emit every element verbatim (also the
non-finite ones), with no coercion to zero. -/
theorem vecXToJson_vec3ToJson_verbatim (vec : List SVal) (v3 : Vector3s) :
    arrayElems (vecXToJson vec) = vec.map JsonTok.num ∧
    arrayElems (vec3ToJson v3) =
      [JsonTok.num v3.x, JsonTok.num v3.y, JsonTok.num v3.z] :=
  ⟨arrayElems_vecXToJson vec, rfl⟩

/-- C3: with autoflush off and an empty buffer, enqueueing the commands `cs`
and then calling `flush()` sends exactly one outbound message holding exactly
`cs` in enqueue order and clears the buffer; a subsequent `flush()` with the
now-empty buffer sends zero messages (it is a no-op). -/
theorem flush_atomicity (st : SchedulerState) (cs : List Command)
    (hauto : st.autoflush = false) (hbuf : st.buffer = [])
    (hne : cs ≠ []) :
    (flush (queueAll st cs)).sent = st.sent ++ [cs] ∧
    (flush (queueAll st cs)).buffer = [] ∧
    flush (flush (queueAll st cs)) = flush (queueAll st cs) := by
  have hq := queueAll_no_autoflush cs st hauto
  rw [hq, hbuf]
  have hcs : cs.isEmpty = false := by
    cases cs with
    | nil => exact absurd rfl hne
    | cons a l => rfl
  constructor
  · simp [flush, hcs]
  constructor
  · simp [flush, hcs]
  · simp [flush, hcs]

/-- Witness for C3 at a concrete input: two commands enqueued from the empty
scheduler state with autoflush off. -/
theorem flush_atomicity_witness :
    (flush (queueAll ⟨false, [], []⟩ ["a", "b"])).sent = [] ++ [["a", "b"]] ∧
    (flush (queueAll ⟨false, [], []⟩ ["a", "b"])).buffer = [] ∧
    flush (flush (queueAll ⟨false, [], []⟩ ["a", "b"])) =
      flush (queueAll ⟨false, [], []⟩ ["a", "b"]) :=
  flush_atomicity ⟨false, [], []⟩ ["a", "b"] rfl rfl (by decide)

theorem isSome_false_eq_none {α : Type} {o : Option α}
    (h : o.isSome = false) : o = none := by
  cases o with
  | none => rfl
  | some v => simp at h

/-- C4: generic reads degrade instead of failing.  On an absent key every
getter (position, rotation, color, scale) returns the zero 3-vector, and
`getObjectScale` on a key held by a `Line` returns the zero 3-vector; the
getters are total, so no read raises an error. -/
theorem getters_degrade (st : GUIState) (key lineKey : String) (ln : Line)
    (habs : hasObject st key = false)
    (hb : List.lookup lineKey st.mBoxes = none)
    (hs : List.lookup lineKey st.mSpheres = none)
    (hc : List.lookup lineKey st.mCapsules = none)
    (hm : List.lookup lineKey st.mMeshes = none)
    (_hl : List.lookup lineKey st.mLines = some ln) :
    getObjectPosition st key = Vector3s.zero ∧
    getObjectRotation st key = Vector3s.zero ∧
    getObjectColor st key = Vector3s.zero ∧
    getObjectScale st key = Vector3s.zero ∧
    getObjectScale st lineKey = Vector3s.zero := by
  rw [hasObject] at habs
  simp only [Bool.or_eq_false_iff] at habs
  obtain ⟨⟨⟨⟨h1, h2⟩, h3⟩, h4⟩, h5⟩ := habs
  have e1 := isSome_false_eq_none h1
  have e2 := isSome_false_eq_none h2
  have e3 := isSome_false_eq_none h3
  have e4 := isSome_false_eq_none h4
  have e5 := isSome_false_eq_none h5
  refine ⟨?_, ?_, ?_, ?_, ?_⟩ <;>
    simp [getObjectPosition, getObjectRotation, getObjectColor,
      getObjectScale, e1, e2, e3, e4, e5, hb, hs, hc, hm]

/-- A store holding exactly one line object, for the C4 witness. -/
def lineOnlyState : GUIState :=
  { mBoxes := [], mSpheres := [], mCapsules := []
    mLines := [("line1", ⟨"line1", [], Vector3s.zero⟩)]
    mMeshes := [], mTextures := [], mText := [], mButtons := []
    mSliders := [], mPlots := [], mMouseInteractionEnabled := [] }

/-- Witness for C4 at a concrete input: a store holding one line, an absent
key `"missing"`, and the line key `"line1"`. -/
theorem getters_degrade_witness :
    getObjectPosition lineOnlyState "missing" = Vector3s.zero ∧
    getObjectRotation lineOnlyState "missing" = Vector3s.zero ∧
    getObjectColor lineOnlyState "missing" = Vector3s.zero ∧
    getObjectScale lineOnlyState "missing" = Vector3s.zero ∧
    getObjectScale lineOnlyState "line1" = Vector3s.zero :=
  getters_degrade lineOnlyState "missing" "line1" ⟨"line1", [], Vector3s.zero⟩
    (by decide) (by decide) (by decide) (by decide) (by decide) (by decide)

/-- C5: last-writer-wins across kinds.  After any nonempty sequence of create
calls (of any mix of kinds) on the same key, exactly one container holds the
key and the retrievable object is the one stored by the most recent create
call; the earlier object is overwritten without error even across kinds. -/
theorem create_last_writer_wins (st : GUIState) (key : String)
    (cs : List CreateCall) (c : CreateCall) :
    lookupObject (applyCreates st key (cs ++ [c])) key =
      some (objOf key c) ∧
    containersHolding (applyCreates st key (cs ++ [c])) key = 1 := by
  have happ : applyCreates st key (cs ++ [c]) =
      applyCreate (applyCreates st key cs) key c := by
    simp [applyCreates, List.foldl_append]
  rw [happ]
  cases c <;>
    simp [applyCreate, insertObj, eraseAll, objOf, lookupObject,
      containersHolding, lookup_mapAssign_self, lookup_mapErase_self]

/-- C7: after `deleteObjectsByPrefix(pre)`, no remaining object in any kind
container has a key starting with `pre`, and every object whose key does not
start with `pre` is unchanged. -/
theorem deleteObjectsByPrefix_spec (st : GUIState) (pre : String) :
    removesPre pre st.mBoxes (deleteObjectsByPrefix st pre).mBoxes ∧
    removesPre pre st.mSpheres (deleteObjectsByPrefix st pre).mSpheres ∧
    removesPre pre st.mCapsules (deleteObjectsByPrefix st pre).mCapsules ∧
    removesPre pre st.mLines (deleteObjectsByPrefix st pre).mLines ∧
    removesPre pre st.mMeshes (deleteObjectsByPrefix st pre).mMeshes ∧
    removesPre pre st.mTextures (deleteObjectsByPrefix st pre).mTextures ∧
    removesPre pre st.mText (deleteObjectsByPrefix st pre).mText ∧
    removesPre pre st.mButtons (deleteObjectsByPrefix st pre).mButtons ∧
    removesPre pre st.mSliders (deleteObjectsByPrefix st pre).mSliders ∧
    removesPre pre st.mPlots (deleteObjectsByPrefix st pre).mPlots :=
  ⟨removesPre_keepWithoutPre pre st.mBoxes,
    removesPre_keepWithoutPre pre st.mSpheres,
    removesPre_keepWithoutPre pre st.mCapsules,
    removesPre_keepWithoutPre pre st.mLines,
    removesPre_keepWithoutPre pre st.mMeshes,
    removesPre_keepWithoutPre pre st.mTextures,
    removesPre_keepWithoutPre pre st.mText,
    removesPre_keepWithoutPre pre st.mButtons,
    removesPre_keepWithoutPre pre st.mSliders,
    removesPre_keepWithoutPre pre st.mPlots⟩

theorem addSubMesh_step (acc : FlatAcc) (tm : (Vector3s → Vector3s) × SubMesh)
    (h1 : List.Chain' (· ≤ ·) acc.textureStartIndices)
    (h2 : acc.textureStartIndices.length = acc.textures.length)
    (h3 : ∀ s ∈ acc.textureStartIndices, s ≤ (acc.faces.length : ℤ)) :
    List.Chain' (· ≤ ·) (addSubMesh acc tm).textureStartIndices ∧
    (addSubMesh acc tm).textureStartIndices.length =
      (addSubMesh acc tm).textures.length ∧
    ∀ s ∈ (addSubMesh acc tm).textureStartIndices,
      s ≤ ((addSubMesh acc tm).faces.length : ℤ) := by
  cases htex : tm.2.texture with
  | none =>
      refine ⟨by simp [addSubMesh, htex, h1], by simp [addSubMesh, htex, h2],
        ?_⟩
      intro s hs
      simp only [addSubMesh, htex, List.append_nil] at hs ⊢
      have := h3 s hs
      simp only [List.length_append]
      push_cast
      omega
  | some t =>
      refine ⟨?_, by simp [addSubMesh, htex, h2], ?_⟩
      · simp only [addSubMesh, htex]
        rw [List.chain'_append]
        refine ⟨h1, List.chain'_singleton _, ?_⟩
        intro x hx y hy
        obtain ⟨hne, hxl⟩ := List.mem_getLast?_eq_getLast hx
        simp only [List.head?_cons, Option.mem_def, Option.some.injEq] at hy
        subst hy
        subst hxl
        exact h3 _ (List.getLast_mem hne)
      · intro s hs
        simp only [addSubMesh, htex] at hs ⊢
        rw [List.mem_append] at hs
        simp only [List.length_append]
        cases hs with
        | inl hmem =>
            have := h3 s hmem
            push_cast
            omega
        | inr hone =>
            simp only [List.mem_singleton] at hone
            subst hone
            push_cast
            omega

theorem foldl_addSubMesh_inv (subs : List ((Vector3s → Vector3s) × SubMesh))
    (acc : FlatAcc)
    (h1 : List.Chain' (· ≤ ·) acc.textureStartIndices)
    (h2 : acc.textureStartIndices.length = acc.textures.length)
    (h3 : ∀ s ∈ acc.textureStartIndices, s ≤ (acc.faces.length : ℤ)) :
    List.Chain' (· ≤ ·) (subs.foldl addSubMesh acc).textureStartIndices ∧
    (subs.foldl addSubMesh acc).textureStartIndices.length =
      (subs.foldl addSubMesh acc).textures.length ∧
    ∀ s ∈ (subs.foldl addSubMesh acc).textureStartIndices,
      s ≤ ((subs.foldl addSubMesh acc).faces.length : ℤ) := by
  induction subs generalizing acc with
  | nil => exact ⟨h1, h2, h3⟩
  | cons tm rest ih =>
      obtain ⟨g1, g2, g3⟩ := addSubMesh_step acc tm h1 h2 h3
      simpa only [List.foldl_cons] using ih (addSubMesh acc tm) g1 g2 g3

/-- C6: the `Mesh` stored by `createMeshASSIMP` satisfies the flattening
invariants: `textureStartIndices` is non-decreasing, its length equals the
length of `textures`, and every recorded starting face index is at most the
face count, so the final entry's region extends to the last face. -/
theorem createMeshASSIMP_invariants (st : GUIState) (key : String)
    (scene : AssetNode) (pos euler scale color : Vector3s) (cS rS : Bool) :
    ∃ m : Mesh,
      List.lookup key
        (createMeshASSIMP st key scene pos euler scale color cS rS).mMeshes =
        some m ∧
      List.Chain' (· ≤ ·) m.textureStartIndices ∧
      m.textureStartIndices.length = m.textures.length ∧
      ∀ s ∈ m.textureStartIndices, s ≤ (m.faces.length : ℤ) := by
  obtain ⟨g1, g2, g3⟩ := foldl_addSubMesh_inv (dfsNode (fun v => v) scene)
    { vertices := [], normals := [], faces := [], uvs := [], textures := []
      textureStartIndices := [] }
    (List.chain'_nil) rfl (by intro s hs; simp at hs)
  refine ⟨⟨key, (flattenScene scene).vertices, (flattenScene scene).normals,
    (flattenScene scene).faces, (flattenScene scene).uvs,
    (flattenScene scene).textures, (flattenScene scene).textureStartIndices,
    pos, euler, scale, color, cS, rS⟩, ?_, ?_, ?_, ?_⟩
  · simp [createMeshASSIMP, applyCreate, insertObj, objOf, eraseAll,
      lookup_mapAssign_self]
  · simpa [flattenScene] using g1
  · simpa [flattenScene] using g2
  · simpa [flattenScene] using g3

/-- C8: listener isolation.  Dispatching one key-down event invokes every
registered listener exactly once, in registration order, with the same event
payload; each invocation is isolated, so a listener that raises does not
prevent any later listener from observing the event. -/
theorem keydown_listener_isolation (ls : List KeyListener)
    (payload : String) :
    (dispatchKeydown ls payload).length = ls.length ∧
    ∀ i : ℕ, (dispatchKeydown ls payload)[i]? =
      (ls[i]?).map (fun l => invokeIsolated l payload) := by
  have hmap : dispatchKeydown ls payload =
      ls.map (fun l => invokeIsolated l payload) := by
    induction ls with
    | nil => rfl
    | cons l rest ih => simp [dispatchKeydown, ih]
  rw [hmap]
  exact ⟨List.length_map _ _, fun i => List.getElem?_map _ _ _⟩

end Dart
